import Mathlib

/-!
Verification development for `asdcontrol`, the Apple Studio Display
brightness control utility.

The repository holds two revisions of the same one-file C++ program:
the 2023 revision (the authoritative one, with percentage support) and an
older revision (`asdcontrol.cpp`).  Below, each definition is a direct
shallow embedding of the corresponding C++ function:

* `number` / `isPercent` embed the token classifier of the 2023 revision;
* `numberOld` embeds `number` of the older revision;
* `atoi` embeds the C library `atoi` on the token shapes this program
  passes to it (no leading whitespace; machine `int` overflow is not
  modelled, the values are mathematical integers);
* `scanArg` / `scanArgs` embed the positional-argument loop of `main`;
* `is_supported`, `is_usb_monitor` embed the device database lookup and
  the Monitor Control application probe;
* `process_device` embeds the body of the per-device loop of `main`,
  with the outcome of each `ioctl` supplied by an explicit `Device`
  world record and the issued operations collected in a trace;
* `runDevices` / `asdMain` embed the loop over device paths and the
  surrounding argument-structure checks.
-/

namespace Asdcontrol

/-- The C character test `c >= '0' && c <= '9'`. -/
def isDigitChar (c : Char) : Bool := decide ('0' ≤ c ∧ c ≤ '9')

/-- Scanning loop of the 2023 revision's `number` (part_002 lines 124-139),
run over the characters after the first one, with the `hasPercent` flag. -/
def numberLoop : List Char → Bool → Bool
  | [], _ => true
  | c :: cs, hasPercent =>
    if c = '%' then
      if hasPercent then false else numberLoop cs true
    else if hasPercent then false
    else if isDigitChar c then numberLoop cs hasPercent
    else false

/-- `number` of the 2023 revision (part_002 lines 110-142) over the
character list: first character must be a digit, `+` or `-`; the scan
then starts at the second character. -/
def numberList : List Char → Bool
  | [] => false
  | c :: cs =>
    if isDigitChar c || c == '+' || c == '-' then numberLoop cs false
    else false

/-- `number` of the 2023 revision on a string. -/
def number (s : String) : Bool := numberList s.toList

/-- Scanning loop of the older revision's `number` (asdcontrol.cpp lines
116-123): every character, the first one included, must be a digit. -/
def numberOldLoop : List Char → Bool
  | [] => true
  | c :: cs => if isDigitChar c then numberOldLoop cs else false

/-- `number` of the older revision (asdcontrol.cpp lines 108-126) over the
character list.  Note the loop starts at `*str`, the first character,
not at the second. -/
def numberOldList : List Char → Bool
  | [] => false
  | c :: cs =>
    if isDigitChar c || c == '+' || c == '-' then numberOldLoop (c :: cs)
    else false

/-- `number` of the older revision on a string. -/
def numberOld (s : String) : Bool := numberOldList s.toList

/-- Scanning loop of `isPercent` (part_002 lines 157-168). -/
def isPercentLoop : List Char → Bool → Bool
  | [], hasPercent => hasPercent
  | c :: cs, hasPercent =>
    if c = '%' then
      if hasPercent then false else isPercentLoop cs true
    else if hasPercent then false
    else isPercentLoop cs hasPercent

/-- `isPercent` of the 2023 revision (part_002 lines 149-171). -/
def isPercent (s : String) : Bool := isPercentLoop s.toList false

/-- Value of the longest leading digit run, most significant digit first. -/
def digitRunValue : List Char → Int → Int
  | [], acc => acc
  | c :: cs, acc =>
    if isDigitChar c then digitRunValue cs (acc * 10 + (c.toNat - 48 : Nat))
    else acc

/-- The C library `atoi` on the argument shapes this program feeds it:
an optional sign followed by the longest digit run (the tokens reaching
`atoi` here never carry leading whitespace, and `int` overflow is not
modelled). -/
def atoi (s : String) : Int :=
  match s.toList with
  | '+' :: cs => digitRunValue cs 0
  | '-' :: cs => - digitRunValue cs 0
  | cs => digitRunValue cs 0

/-- The four `USAGE_MODE_*` constants. -/
inductive Mode
  | GET
  | SET
  | DETECT
  | SETREL
deriving DecidableEq

/-- State threaded through the positional-argument loop of `main`
(part_002 lines 498-514): the mutable locals `mode`, `brightness`,
`amount`, `percent` and the `files` list. -/
structure ArgState where
  mode : Mode
  brightness : Int
  amount : Int
  percent : Bool
  files : List String
deriving DecidableEq

/-- Initial values of the locals when the positional loop starts: the
detect flag may already have set `mode = USAGE_MODE_DETECT`. -/
def initialArgState (detect : Bool) : ArgState :=
  { mode := if detect then Mode.DETECT else Mode.GET
    brightness := 0
    amount := 0
    percent := false
    files := [] }

/-- One iteration of the positional-argument loop (part_002 lines 498-514).
A numeric token sets `mode` and one of `brightness`/`amount`, then the
`percent` flag; anything else is appended to the file list. -/
def scanArg (st : ArgState) (a : String) : ArgState :=
  if st.mode ≠ Mode.DETECT ∧ number a = true then
    let st' :=
      if a.toList.head? = some '+' ∨ a.toList.head? = some '-' then
        { st with mode := Mode.SETREL, amount := atoi a }
      else
        { st with mode := Mode.SET, brightness := atoi a }
    { st' with percent := isPercent a }
  else
    { st with files := st.files ++ [a] }

/-- The whole positional-argument loop. -/
def scanArgs (detect : Bool) (args : List String) : ArgState :=
  args.foldl scanArg (initialArgState detect)

/-- The `DeviceId` record of the C++ source (product, vendor, description
and the model's brightness bounds). -/
structure DeviceId where
  product : Nat
  vendor : Nat
  description : String
  brightness_min : Int
  brightness_max : Int
deriving DecidableEq

/-- The one entry `init_device_database` inserts (part_002 lines 670-676):
vendor `APPLE = 0x05ac`, product `STUDIO_DISPLAY_27 = 0x1114`, bounds
400 to 60000. -/
def appleStudioDisplay27 : DeviceId :=
  { product := 0x1114
    vendor := 0x05ac
    description := "Apple Studio Display (2022, 27\")"
    brightness_min := 400
    brightness_max := 60000 }

/-- The `supportedDevices` set after `init_device_database`. -/
def supportedDevices : List DeviceId := [appleStudioDisplay27]

/-- `is_supported` (part_002 lines 178-189): mask vendor and product to
16 bits, then look the pair up in the device database.  The `set::find`
of the source compares with `operator<`, i.e. equality of the
(vendor, product) key. -/
def is_supported (reg : List DeviceId) (vendor product : Nat) : Option DeviceId :=
  let p := product &&& 0xFFFF
  let v := vendor &&& 0xFFFF
  reg.find? (fun d => d.vendor == v && d.product == p)

/-- `is_usb_monitor` (part_002 lines 233-252): true when some enumerated
HID application identifier has bits 16-23 equal to `0x80`.  The list
stands for the identifiers returned by the `HIDIOCAPPLICATION` calls for
indices `0 .. num_applications - 1`. -/
def is_usb_monitor (applications : List Nat) : Bool :=
  applications.any (fun a => (a >>> 16) &&& 0xFF == 0x80)

/-- World-side description of one device path: identity, the enumerated
application identifiers, whether each kind of system call succeeds, and
the brightness value a successful get-usage returns. -/
structure Device where
  vendor : Nat
  product : Nat
  applications : List Nat
  openOk : Bool
  initReportOk : Bool
  getUsageOk : Bool
  getReportOk : Bool
  setUsageOk : Bool
  setReportOk : Bool
  currentValue : Int
deriving DecidableEq

/-- Operations the per-device loop body issues on the device handle. -/
inductive Op
  | openDev
  | getVersion
  | getDevInfo
  | initReport
  | getUsage
  | getReport
  | setUsage (v : Int)
  | setReport
  | closeDev
deriving DecidableEq

/-- How the loop body leaves one device: fall through to the next path,
terminate the whole process with an exit code, or dereference the null
`selected_device` pointer (undefined behavior in the source, reachable
only with `--force` on an unsupported device). -/
inductive DevResult
  | continueRun
  | exitCode (c : Nat)
  | nullDeref
deriving DecidableEq

/-- The option/token state the loop body reads: `mode`, `brightness`,
`amount`, `percent` from the argument scan, plus the `force` flag. -/
structure Config where
  mode : Mode
  brightness : Int
  amount : Int
  percent : Bool
  force : Bool
deriving DecidableEq

/-- Builds a `Config` from the scanned arguments and the force flag. -/
def configOf (st : ArgState) (force : Bool) : Config :=
  { mode := st.mode
    brightness := st.brightness
    amount := st.amount
    percent := st.percent
    force := force }

/-- The percentage block (part_002 lines 582-594): when `amount == 0` the
`brightness` local is replaced by
`(min(max(brightness,0),100) * span / 100) + brightness_min`, otherwise
`amount` is rescaled to `amount * span / 100`.  C `int` division
truncates toward zero, hence `Int.tdiv`. -/
def applyPercent (d : DeviceId) (brightness amount : Int) : Int × Int :=
  let span := d.brightness_max - d.brightness_min
  if amount = 0 then
    (Int.tdiv (min (max brightness 0) 100 * span) 100 + d.brightness_min, amount)
  else
    (brightness, Int.tdiv (amount * span) 100)

/-- The get/set transaction of the loop body (part_002 lines 596-662),
entered after `HIDIOCINITREPORT` succeeded, with the `brightness` and
`amount` locals as left by the percentage block.  `sel` is the
`selected_device` pointer (`none` = null, possible under `--force`). -/
def mainTransaction (cfg : Config) (dev : Device) (sel : Option DeviceId)
    (brightness amount : Int) (ops : List Op) : List Op × DevResult :=
  if cfg.mode = Mode.SET then
    if dev.setUsageOk = false then
      (ops ++ [Op.setUsage brightness], DevResult.exitCode 2)
    else if dev.setReportOk = false then
      (ops ++ [Op.setUsage brightness, Op.setReport], DevResult.exitCode 3)
    else
      (ops ++ [Op.setUsage brightness, Op.setReport, Op.closeDev],
        DevResult.continueRun)
  else
    if dev.getUsageOk = false then
      (ops ++ [Op.getUsage], DevResult.exitCode 2)
    else if dev.getReportOk = false then
      (ops ++ [Op.getUsage, Op.getReport], DevResult.exitCode 3)
    else
      let ops := ops ++ [Op.getUsage, Op.getReport]
      if cfg.mode = Mode.SETREL then
        match sel with
        | none => (ops, DevResult.nullDeref)
        | some d =>
          let b := dev.currentValue + amount
          let b := max d.brightness_min b
          let b := min d.brightness_max b
          if dev.setUsageOk = false then
            (ops ++ [Op.setUsage b], DevResult.exitCode 2)
          else if dev.setReportOk = false then
            (ops ++ [Op.setUsage b, Op.setReport], DevResult.exitCode 3)
          else
            let ops := ops ++ [Op.setUsage b, Op.setReport]
            if dev.getUsageOk = false then
              (ops ++ [Op.getUsage], DevResult.exitCode 2)
            else if dev.getReportOk = false then
              (ops ++ [Op.getUsage, Op.getReport], DevResult.exitCode 3)
            else
              (ops ++ [Op.getUsage, Op.getReport, Op.closeDev],
                DevResult.continueRun)
      else
        (ops ++ [Op.closeDev], DevResult.continueRun)

/-- The body of the per-device loop of `main` (part_002 lines 529-666),
returning the trace of operations issued on this device's handle and how
the iteration ends.  Faithful details: the detect branch and the
not-a-USB-monitor branch `continue` without `close`; the unsupported
check precedes the monitor gate; `exit` never closes the handle. -/
def process_device (reg : List DeviceId) (cfg : Config) (dev : Device) :
    List Op × DevResult :=
  if dev.openOk = false then
    ([], DevResult.continueRun)
  else
    let ops := [Op.openDev, Op.getVersion, Op.getDevInfo]
    if cfg.mode = Mode.DETECT then
      (ops, DevResult.continueRun)
    else
      let sel := is_supported reg dev.vendor dev.product
      if sel = none ∧ cfg.force = false then
        (ops, DevResult.exitCode 2)
      else if is_usb_monitor dev.applications = false then
        (ops, DevResult.continueRun)
      else if dev.initReportOk = false then
        (ops ++ [Op.initReport], DevResult.exitCode 1)
      else
        let ops := ops ++ [Op.initReport]
        if cfg.percent = true then
          match sel with
          | none => (ops, DevResult.nullDeref)
          | some d =>
            let p := applyPercent d cfg.brightness cfg.amount
            mainTransaction cfg dev sel p.1 p.2 ops
        else
          mainTransaction cfg dev sel cfg.brightness cfg.amount ops

/-- Outcome of a whole run: the loop over paths finished (main returns,
exit status 0), the process exited with a code, or undefined behavior
was reached. -/
inductive RunResult
  | finished
  | exited (c : Nat)
  | crashed
deriving DecidableEq

/-- The loop over the device paths (part_002 lines 529-666): devices are
processed strictly in order; an `exit` stops the run, so later devices
are not touched.  Returns the traces of the devices actually processed
(in order) together with the run outcome. -/
def runDevices (reg : List DeviceId) (cfg : Config) :
    List Device → List (List Op) × RunResult
  | [] => ([], RunResult.finished)
  | d :: ds =>
    let r := process_device reg cfg d
    match r.2 with
    | DevResult.continueRun =>
      let rest := runDevices reg cfg ds
      (r.1 :: rest.1, rest.2)
    | DevResult.exitCode c => ([r.1], RunResult.exited c)
    | DevResult.nullDeref => ([r.1], RunResult.crashed)

/-- `main` after option processing (part_002 lines 495-667): scan the
positional arguments, exit 1 when no file paths remain, otherwise run
the device loop.  `devs` gives the world-side device behind each path. -/
def asdMain (detect force : Bool) (args : List String)
    (devs : String → Device) : RunResult :=
  let st := scanArgs detect args
  if st.files.isEmpty then RunResult.exited 1
  else (runDevices supportedDevices (configOf st force) (st.files.map devs)).2

/-- The brightness values written to the device: the arguments of the
set-usage operations in a trace. -/
def writtenValues (ops : List Op) : List Int :=
  ops.filterMap (fun o => match o with | Op.setUsage v => some v | _ => none)

/-- All system calls on the device succeed. -/
def allOk (dev : Device) : Prop :=
  dev.openOk = true ∧ dev.initReportOk = true ∧ dev.getUsageOk = true ∧
  dev.getReportOk = true ∧ dev.setUsageOk = true ∧ dev.setReportOk = true

/-- A healthy Apple Studio Display device with the given current
brightness: opens, implements the Monitor Control application (id
`0x800000` has bits 16-23 equal to `0x80`), and every call succeeds. -/
def okDevice (current : Int) : Device :=
  { vendor := 0x05ac
    product := 0x1114
    applications := [0x800000]
    openOk := true
    initReportOk := true
    getUsageOk := true
    getReportOk := true
    setUsageOk := true
    setReportOk := true
    currentValue := current }

/-- An otherwise healthy device whose get-usage call fails. -/
def failGetUsageDevice : Device := { okDevice 30000 with getUsageOk := false }

/-- On percent-free input the two scanning loops agree, because the only
difference between them is the handling of the `%` character. -/
theorem numberLoop_eq_oldLoop (cs : List Char) (h : '%' ∉ cs) :
    numberLoop cs false = numberOldLoop cs := by
  induction cs with
  | nil => rfl
  | cons c cs ih =>
    have hc : ¬ c = '%' := fun hc => h (hc ▸ List.mem_cons_self c cs)
    have htail : '%' ∉ cs := fun hm => h (List.mem_cons_of_mem c hm)
    simp only [numberLoop, numberOldLoop, if_neg hc]
    by_cases hd : isDigitChar c
    · simp [hd, ih htail]
    · simp [hd]

/-- C2 (counterexample): the claim states the classifier returns
NotNumeric for the lone tokens `+` and `-`, which are then treated as
file paths.  In the code, `number` accepts both (the scan starts after
the first character and an empty remainder passes), and the argument
loop consumes a lone `+` as a brightness token instead of adding it to
the file list. -/
theorem C2_counterexample :
    number "+" = true ∧ number "-" = true ∧
    (scanArgs false ["+"]).files = [] ∧
    (scanArgs false ["-"]).files = [] := by decide

/-- C2 (amended): the classifier returns NotNumeric for the empty string,
a lone `%`, `12%5` and `12a`, and a numeric token for `0`, `+5960`,
`20%` and `+10%`; but a lone `+` or `-` (an empty digit run after a
sign) is accepted as numeric and becomes a relative adjustment by zero,
never a file path. -/
theorem C2_amended_classifier :
    number "" = false ∧ number "%" = false ∧ number "12%5" = false ∧
    number "12a" = false ∧ number "0" = true ∧ number "+5960" = true ∧
    number "20%" = true ∧ number "+10%" = true ∧
    number "+" = true ∧ number "-" = true ∧
    (scanArgs false ["+"]).mode = Mode.SETREL ∧
    (scanArgs false ["+"]).amount = 0 ∧
    (scanArgs false ["-"]).mode = Mode.SETREL ∧
    (scanArgs false ["-"]).amount = 0 := by decide

/-- C9 (counterexample): the claim states the two revisions classify
every percent-free token, `+5960` among them, the same way.  The older
revision's scanning loop starts at the first character, so the sign
itself fails its digit test: `numberOld "+5960" = false` while the 2023
revision accepts it. -/
theorem C9_counterexample :
    number "+5960" = true ∧ numberOld "+5960" = false := by decide

/-- C9 (amended): the two revisions' `number` functions agree on every
token that contains no `%` and does not start with a sign; on
sign-prefixed tokens the older revision always answers false. -/
theorem C9_amended_agree (s : String) (h : '%' ∉ s.toList)
    (hplus : s.toList.head? ≠ some '+') (hminus : s.toList.head? ≠ some '-') :
    numberOld s = number s := by
  unfold number numberOld
  rcases hs : s.toList with _ | ⟨c, cs⟩
  · rfl
  · rw [hs] at h hplus hminus
    have hcp : c ≠ '+' := by simpa using hplus
    have hcm : c ≠ '-' := by simpa using hminus
    have hcpb : (c == '+') = false := by simpa using hcp
    have hcmb : (c == '-') = false := by simpa using hcm
    have htail : '%' ∉ cs := fun hm => h (List.mem_cons_of_mem c hm)
    by_cases hd : isDigitChar c
    · simp only [numberList, numberOldList, hd, hcpb, hcmb, Bool.or_false,
        Bool.true_or, ite_true]
      simp only [numberOldLoop, hd, ite_true]
      exact (numberLoop_eq_oldLoop cs htail).symm
    · simp [numberList, numberOldList, hd, hcpb, hcmb]

/-- C9 (witness): the amended agreement at the concrete token `123`. -/
theorem C9_amended_witness : numberOld "123" = number "123" :=
  C9_amended_agree "123" (by decide) (by decide) (by decide)

/-- C1 (counterexample): the claim states that for bounds [400, 60000]
the absolute token `999999` writes 60000 and the written value always
lies within the bounds.  In the code, absolute mode applies no clamping:
the raw value 999999 is written, which exceeds 60000. -/
theorem C1_counterexample :
    writtenValues (process_device supportedDevices
      { mode := Mode.SET, brightness := 999999, amount := 0,
        percent := false, force := false } (okDevice 30000)).1 = [999999] ∧
    ¬ ((999999 : Int) ≤ 60000) := by decide

/-- C1 (amended): for an absolute, non-percentage brightness token the
value written to the device is the parsed magnitude unchanged: `main`
performs no clamping in absolute mode, so the written value satisfies
the model bounds only when the magnitude already does. -/
theorem C1_amended_absolute_unclamped (reg : List DeviceId) (d : DeviceId)
    (cfg : Config) (dev : Device)
    (hok : allOk dev)
    (hsel : is_supported reg dev.vendor dev.product = some d)
    (hmon : is_usb_monitor dev.applications = true)
    (hmode : cfg.mode = Mode.SET) (hpct : cfg.percent = false) :
    writtenValues (process_device reg cfg dev).1 = [cfg.brightness] := by
  obtain ⟨ho, hi, hgu, hgr, hsu, hsr⟩ := hok
  simp [process_device, mainTransaction, writtenValues, hsel, ho, hi, hgu,
    hgr, hsu, hsr, hmode, hmon, hpct]

/-- C1 (witness): the amended statement at the absolute token 999999 on
a healthy Apple Studio Display: the written value is 999999. -/
theorem C1_amended_witness :
    writtenValues (process_device supportedDevices
      { mode := Mode.SET, brightness := 999999, amount := 0,
        percent := false, force := false } (okDevice 30000)).1 = [999999] :=
  C1_amended_absolute_unclamped supportedDevices appleStudioDisplay27
    { mode := Mode.SET, brightness := 999999, amount := 0,
      percent := false, force := false } (okDevice 30000)
    ⟨rfl, rfl, rfl, rfl, rfl, rfl⟩ (by decide) (by decide) rfl rfl

/-- C10 (counterexample): the claim states the last numeric token alone
determines the written value.  With tokens `+5` then `50%`, the stale
relative amount 5 survives, so the percentage block scales the amount
instead of converting the 50 percent magnitude, and the raw value 50 is
written; with `50%` alone the written value is 30200. -/
theorem C10_counterexample :
    (scanArgs false ["+5", "50%", "/dev/hiddev0"]).mode = Mode.SET ∧
    (scanArgs false ["+5", "50%", "/dev/hiddev0"]).percent = true ∧
    (scanArgs false ["+5", "50%", "/dev/hiddev0"]).files = ["/dev/hiddev0"] ∧
    (scanArgs false ["50%", "/dev/hiddev0"]).mode = Mode.SET ∧
    (scanArgs false ["50%", "/dev/hiddev0"]).percent = true ∧
    writtenValues (process_device supportedDevices
      (configOf (scanArgs false ["+5", "50%", "/dev/hiddev0"]) false)
      (okDevice 30000)).1 = [50] ∧
    writtenValues (process_device supportedDevices
      (configOf (scanArgs false ["50%", "/dev/hiddev0"]) false)
      (okDevice 30000)).1 = [30200] := by decide

/-- C10 (amended): a numeric token is never added to the file list; it
overwrites the mode and the percentage flag, and it overwrites only its
own value field -- `amount` for a signed token, `brightness` for an
unsigned one -- leaving the other field from earlier tokens in place. -/
theorem C10_amended_scan (st : ArgState) (a : String)
    (hnum : number a = true) (hmode : st.mode ≠ Mode.DETECT) :
    (scanArg st a).files = st.files ∧
    (scanArg st a).percent = isPercent a ∧
    ((a.toList.head? = some '+' ∨ a.toList.head? = some '-') →
      (scanArg st a).mode = Mode.SETREL ∧ (scanArg st a).amount = atoi a ∧
      (scanArg st a).brightness = st.brightness) ∧
    (¬ (a.toList.head? = some '+' ∨ a.toList.head? = some '-') →
      (scanArg st a).mode = Mode.SET ∧ (scanArg st a).brightness = atoi a ∧
      (scanArg st a).amount = st.amount) := by
  unfold scanArg
  rw [if_pos ⟨hmode, hnum⟩]
  split_ifs with hs
  · exact ⟨rfl, rfl, fun _ => ⟨rfl, rfl, rfl⟩, fun hc => absurd hs hc⟩
  · exact ⟨rfl, rfl, fun hc => absurd hc hs, fun _ => ⟨rfl, rfl, rfl⟩⟩

/-- C10 (witness): the amended statement at the token `+5` from the
initial state: the token is not filed, mode becomes relative, the
amount becomes 5 and the brightness field keeps its earlier value. -/
theorem C10_amended_witness :
    (scanArg (initialArgState false) "+5").files = (initialArgState false).files ∧
    (scanArg (initialArgState false) "+5").mode = Mode.SETREL ∧
    (scanArg (initialArgState false) "+5").amount = atoi "+5" ∧
    (scanArg (initialArgState false) "+5").brightness = (initialArgState false).brightness := by
  have h := C10_amended_scan (initialArgState false) "+5" (by decide) (by decide)
  have h2 := h.2.2.1 (Or.inl (by decide))
  exact ⟨h.1, h2.1, h2.2.1, h2.2.2⟩

/-- C4: for a percentage brightness token, the absolute target is
`min + tdiv (clamp(magnitude,0,100) * (max - min)) 100` (truncating
integer division), and in relative mode the delta is first rescaled to
`tdiv (amount * (max - min)) 100` before being added to the current
value and clamped.  (When the relative amount is 0 the code takes the
absolute rescaling branch instead, but the written value still matches
the formula, since a scaled delta of 0 is 0.) -/
theorem C4_percentage_scaling (reg : List DeviceId) (d : DeviceId)
    (cfg : Config) (dev : Device)
    (hok : allOk dev)
    (hsel : is_supported reg dev.vendor dev.product = some d)
    (hmon : is_usb_monitor dev.applications = true)
    (hpct : cfg.percent = true) :
    (cfg.mode = Mode.SET → cfg.amount = 0 →
      writtenValues (process_device reg cfg dev).1 =
        [Int.tdiv (min (max cfg.brightness 0) 100 *
           (d.brightness_max - d.brightness_min)) 100 + d.brightness_min]) ∧
    (cfg.mode = Mode.SETREL →
      writtenValues (process_device reg cfg dev).1 =
        [min d.brightness_max (max d.brightness_min (dev.currentValue +
           Int.tdiv (cfg.amount * (d.brightness_max - d.brightness_min)) 100))]) := by
  obtain ⟨ho, hi, hgu, hgr, hsu, hsr⟩ := hok
  constructor
  · intro hmode hamt
    simp [process_device, applyPercent, mainTransaction, writtenValues,
      hsel, ho, hi, hgu, hgr, hsu, hsr, hmode, hmon, hpct, hamt]
  · intro hmode
    by_cases hamt : cfg.amount = 0
    · simp [process_device, applyPercent, mainTransaction, writtenValues,
        hsel, ho, hi, hgu, hgr, hsu, hsr, hmode, hmon, hpct, hamt]
    · simp [process_device, applyPercent, mainTransaction, writtenValues,
        hsel, ho, hi, hgu, hgr, hsu, hsr, hmode, hmon, hpct, hamt]

/-- C4 (witness): for bounds [400, 60000], the absolute token fifty
percent writes 30200, and the relative token plus ten percent at current
value 30000 writes 35960. -/
theorem C4_witness :
    writtenValues (process_device supportedDevices
      { mode := Mode.SET, brightness := 50, amount := 0,
        percent := true, force := false } (okDevice 30000)).1 = [30200] ∧
    writtenValues (process_device supportedDevices
      { mode := Mode.SETREL, brightness := 0, amount := 10,
        percent := true, force := false } (okDevice 30000)).1 = [35960] := by
  constructor
  · exact ((C4_percentage_scaling supportedDevices appleStudioDisplay27
      { mode := Mode.SET, brightness := 50, amount := 0,
        percent := true, force := false } (okDevice 30000)
      ⟨rfl, rfl, rfl, rfl, rfl, rfl⟩ (by decide) (by decide) rfl).1
      rfl rfl).trans (by decide)
  · exact ((C4_percentage_scaling supportedDevices appleStudioDisplay27
      { mode := Mode.SETREL, brightness := 0, amount := 10,
        percent := true, force := false } (okDevice 30000)
      ⟨rfl, rfl, rfl, rfl, rfl, rfl⟩ (by decide) (by decide) rfl).2
      rfl).trans (by decide)

/-- C5: for a relative, non-percentage adjustment the written value is
the current value plus the signed amount, clamped saturating into the
model bounds, and therefore always lies within those bounds. -/
theorem C5_relative_clamped (reg : List DeviceId) (d : DeviceId)
    (cfg : Config) (dev : Device)
    (hok : allOk dev)
    (hsel : is_supported reg dev.vendor dev.product = some d)
    (hmon : is_usb_monitor dev.applications = true)
    (hmode : cfg.mode = Mode.SETREL) (hpct : cfg.percent = false)
    (hbounds : d.brightness_min ≤ d.brightness_max) :
    writtenValues (process_device reg cfg dev).1 =
      [min d.brightness_max (max d.brightness_min (dev.currentValue + cfg.amount))] ∧
    d.brightness_min ≤
      min d.brightness_max (max d.brightness_min (dev.currentValue + cfg.amount)) ∧
    min d.brightness_max (max d.brightness_min (dev.currentValue + cfg.amount)) ≤
      d.brightness_max := by
  obtain ⟨ho, hi, hgu, hgr, hsu, hsr⟩ := hok
  refine ⟨?_, le_min hbounds (le_max_left _ _), min_le_left _ _⟩
  simp [process_device, mainTransaction, writtenValues,
    hsel, ho, hi, hgu, hgr, hsu, hsr, hmode, hmon, hpct]

/-- C5 (witness): for bounds [400, 60000], a delta of plus 100000 at
current value 59000 writes 60000, and a delta of minus 100000 at current
value 500 writes 400. -/
theorem C5_witness :
    writtenValues (process_device supportedDevices
      { mode := Mode.SETREL, brightness := 0, amount := 100000,
        percent := false, force := false } (okDevice 59000)).1 = [60000] ∧
    writtenValues (process_device supportedDevices
      { mode := Mode.SETREL, brightness := 0, amount := -100000,
        percent := false, force := false } (okDevice 500)).1 = [400] := by
  constructor
  · exact ((C5_relative_clamped supportedDevices appleStudioDisplay27
      { mode := Mode.SETREL, brightness := 0, amount := 100000,
        percent := false, force := false } (okDevice 59000)
      ⟨rfl, rfl, rfl, rfl, rfl, rfl⟩ (by decide) (by decide) rfl rfl
      (by decide)).1).trans (by decide)
  · exact ((C5_relative_clamped supportedDevices appleStudioDisplay27
      { mode := Mode.SETREL, brightness := 0, amount := -100000,
        percent := false, force := false } (okDevice 500)
      ⟨rfl, rfl, rfl, rfl, rfl, rfl⟩ (by decide) (by decide) rfl rfl
      (by decide)).1).trans (by decide)

/-- C7: a device none of whose enumerated application identifiers has
bits 16-23 equal to 0x80 is never written to -- no set-usage and no
set-report occurs in its trace -- whatever the mode, the token state and
the force flag; its processing stops at the monitor-control gate. -/
theorem C7_no_write_to_non_monitor (reg : List DeviceId) (cfg : Config)
    (dev : Device)
    (h : ∀ a ∈ dev.applications, (a >>> 16) &&& 0xFF ≠ 0x80) :
    (∀ v, Op.setUsage v ∉ (process_device reg cfg dev).1) ∧
    Op.setReport ∉ (process_device reg cfg dev).1 := by
  have hmon : is_usb_monitor dev.applications = false := by
    simp only [is_usb_monitor, List.any_eq_false]
    intro a ha
    simpa using h a ha
  unfold process_device
  by_cases ho : dev.openOk = false
  · simp [ho]
  · rw [if_neg ho]
    by_cases hd : cfg.mode = Mode.DETECT
    · rw [if_pos hd]
      constructor
      · intro v
        simp
      · simp
    · rw [if_neg hd]
      by_cases hu : is_supported reg dev.vendor dev.product = none ∧ cfg.force = false
      · rw [if_pos hu]
        constructor
        · intro v
          simp
        · simp
      · rw [if_neg hu, if_pos (by rw [hmon])]
        constructor
        · intro v
          simp
        · simp

/-- C7 (witness): on a device whose application list is `[0x10000, 1]`
(no Monitor Control id), even with the force flag and an absolute set
request, neither a set-usage of 12345 nor a set-report is issued. -/
theorem C7_witness :
    Op.setUsage 12345 ∉ (process_device supportedDevices
      { mode := Mode.SET, brightness := 12345, amount := 0,
        percent := false, force := true }
      { okDevice 30000 with applications := [0x10000, 1] }).1 ∧
    Op.setReport ∉ (process_device supportedDevices
      { mode := Mode.SET, brightness := 12345, amount := 0,
        percent := false, force := true }
      { okDevice 30000 with applications := [0x10000, 1] }).1 := by
  have h := C7_no_write_to_non_monitor supportedDevices
    { mode := Mode.SET, brightness := 12345, amount := 0,
      percent := false, force := true }
    { okDevice 30000 with applications := [0x10000, 1] } (by decide)
  exact ⟨h.1 12345, h.2⟩

/-- C6: the process exit status is 1 when no device paths are given or
report-structure initialization fails; 2 when a device is unsupported
without the force flag or a get-usage or set-usage call fails; 3 when a
get-report or set-report call fails. -/
theorem C6_exit_codes (reg : List DeviceId) (d : DeviceId) (cfg : Config)
    (dev : Device) (detect force : Bool) (args : List String)
    (devs : String → Device) :
    ((scanArgs detect args).files = [] →
      asdMain detect force args devs = RunResult.exited 1) ∧
    (dev.openOk = true → cfg.mode ≠ Mode.DETECT →
      is_supported reg dev.vendor dev.product = some d →
      is_usb_monitor dev.applications = true → dev.initReportOk = false →
      (process_device reg cfg dev).2 = DevResult.exitCode 1) ∧
    (dev.openOk = true → cfg.mode ≠ Mode.DETECT →
      is_supported reg dev.vendor dev.product = none → cfg.force = false →
      (process_device reg cfg dev).2 = DevResult.exitCode 2) ∧
    (dev.openOk = true → cfg.mode = Mode.SET →
      is_supported reg dev.vendor dev.product = some d →
      is_usb_monitor dev.applications = true → dev.initReportOk = true →
      dev.setUsageOk = false →
      (process_device reg cfg dev).2 = DevResult.exitCode 2) ∧
    (dev.openOk = true → cfg.mode = Mode.SET →
      is_supported reg dev.vendor dev.product = some d →
      is_usb_monitor dev.applications = true → dev.initReportOk = true →
      dev.setUsageOk = true → dev.setReportOk = false →
      (process_device reg cfg dev).2 = DevResult.exitCode 3) ∧
    (dev.openOk = true → cfg.mode ≠ Mode.SET → cfg.mode ≠ Mode.DETECT →
      is_supported reg dev.vendor dev.product = some d →
      is_usb_monitor dev.applications = true → dev.initReportOk = true →
      dev.getUsageOk = false →
      (process_device reg cfg dev).2 = DevResult.exitCode 2) ∧
    (dev.openOk = true → cfg.mode ≠ Mode.SET → cfg.mode ≠ Mode.DETECT →
      is_supported reg dev.vendor dev.product = some d →
      is_usb_monitor dev.applications = true → dev.initReportOk = true →
      dev.getUsageOk = true → dev.getReportOk = false →
      (process_device reg cfg dev).2 = DevResult.exitCode 3) ∧
    (dev.openOk = true → cfg.mode = Mode.SETREL →
      is_supported reg dev.vendor dev.product = some d →
      is_usb_monitor dev.applications = true → dev.initReportOk = true →
      dev.getUsageOk = true → dev.getReportOk = true → dev.setUsageOk = false →
      (process_device reg cfg dev).2 = DevResult.exitCode 2) ∧
    (dev.openOk = true → cfg.mode = Mode.SETREL →
      is_supported reg dev.vendor dev.product = some d →
      is_usb_monitor dev.applications = true → dev.initReportOk = true →
      dev.getUsageOk = true → dev.getReportOk = true →
      dev.setUsageOk = true → dev.setReportOk = false →
      (process_device reg cfg dev).2 = DevResult.exitCode 3) := by
  refine ⟨?_, ?_, ?_, ?_, ?_, ?_, ?_, ?_, ?_⟩
  · intro h
    simp [asdMain, h]
  · intro ho hmd hsel hmon hinit
    simp [process_device, ho, hmd, hsel, hmon, hinit]
  · intro ho hmd hsel hforce
    simp [process_device, ho, hmd, hsel, hforce]
  · intro ho hmode hsel hmon hinit hsu
    by_cases hp : cfg.percent = true <;>
      simp [process_device, mainTransaction, applyPercent, ho, hmode, hsel,
        hmon, hinit, hsu, hp]
  · intro ho hmode hsel hmon hinit hsu hsr
    by_cases hp : cfg.percent = true <;>
      simp [process_device, mainTransaction, applyPercent, ho, hmode, hsel,
        hmon, hinit, hsu, hsr, hp]
  · intro ho hms hmd hsel hmon hinit hgu
    by_cases hp : cfg.percent = true <;>
      simp [process_device, mainTransaction, applyPercent, ho, hms, hmd,
        hsel, hmon, hinit, hgu, hp]
  · intro ho hms hmd hsel hmon hinit hgu hgr
    by_cases hp : cfg.percent = true <;>
      simp [process_device, mainTransaction, applyPercent, ho, hms, hmd,
        hsel, hmon, hinit, hgu, hgr, hp]
  · intro ho hmode hsel hmon hinit hgu hgr hsu
    by_cases hp : cfg.percent = true <;>
      simp [process_device, mainTransaction, applyPercent, ho, hmode, hsel,
        hmon, hinit, hgu, hgr, hsu, hp]
  · intro ho hmode hsel hmon hinit hgu hgr hsu hsr
    by_cases hp : cfg.percent = true <;>
      simp [process_device, mainTransaction, applyPercent, ho, hmode, hsel,
        hmon, hinit, hgu, hgr, hsu, hsr, hp]

/-- C6 (witness): each exit-code clause at a concrete input -- an empty
path list exits 1, a failed report initialization exits 1, an
unsupported device without force exits 2, failed set-usage and get-usage
exit 2, failed set-report and get-report exit 3, in both set and
relative modes. -/
theorem C6_witness :
    asdMain false false ["+100"] (fun _ => okDevice 1) = RunResult.exited 1 ∧
    (process_device supportedDevices
      { mode := Mode.SET, brightness := 5, amount := 0,
        percent := false, force := false }
      { okDevice 1 with initReportOk := false }).2 = DevResult.exitCode 1 ∧
    (process_device supportedDevices
      { mode := Mode.GET, brightness := 0, amount := 0,
        percent := false, force := false }
      { okDevice 1 with vendor := 0x1234 }).2 = DevResult.exitCode 2 ∧
    (process_device supportedDevices
      { mode := Mode.SET, brightness := 5, amount := 0,
        percent := false, force := false }
      { okDevice 1 with setUsageOk := false }).2 = DevResult.exitCode 2 ∧
    (process_device supportedDevices
      { mode := Mode.SET, brightness := 5, amount := 0,
        percent := false, force := false }
      { okDevice 1 with setReportOk := false }).2 = DevResult.exitCode 3 ∧
    (process_device supportedDevices
      { mode := Mode.GET, brightness := 0, amount := 0,
        percent := false, force := false }
      failGetUsageDevice).2 = DevResult.exitCode 2 ∧
    (process_device supportedDevices
      { mode := Mode.GET, brightness := 0, amount := 0,
        percent := false, force := false }
      { okDevice 1 with getReportOk := false }).2 = DevResult.exitCode 3 ∧
    (process_device supportedDevices
      { mode := Mode.SETREL, brightness := 0, amount := 7,
        percent := false, force := false }
      { okDevice 1 with setUsageOk := false }).2 = DevResult.exitCode 2 ∧
    (process_device supportedDevices
      { mode := Mode.SETREL, brightness := 0, amount := 7,
        percent := false, force := false }
      { okDevice 1 with setReportOk := false }).2 = DevResult.exitCode 3 := by
  refine ⟨?_, ?_, ?_, ?_, ?_, ?_, ?_, ?_, ?_⟩
  · exact (C6_exit_codes supportedDevices appleStudioDisplay27
      { mode := Mode.GET, brightness := 0, amount := 0,
        percent := false, force := false } (okDevice 1) false false
      ["+100"] (fun _ => okDevice 1)).1 (by decide)
  · exact (C6_exit_codes supportedDevices appleStudioDisplay27
      { mode := Mode.SET, brightness := 5, amount := 0,
        percent := false, force := false }
      { okDevice 1 with initReportOk := false } false false []
      (fun _ => okDevice 1)).2.1 rfl (by decide) (by decide) (by decide) rfl
  · exact (C6_exit_codes supportedDevices appleStudioDisplay27
      { mode := Mode.GET, brightness := 0, amount := 0,
        percent := false, force := false }
      { okDevice 1 with vendor := 0x1234 } false false []
      (fun _ => okDevice 1)).2.2.1 rfl (by decide) (by decide) rfl
  · exact (C6_exit_codes supportedDevices appleStudioDisplay27
      { mode := Mode.SET, brightness := 5, amount := 0,
        percent := false, force := false }
      { okDevice 1 with setUsageOk := false } false false []
      (fun _ => okDevice 1)).2.2.2.1 rfl rfl (by decide) (by decide) rfl rfl
  · exact (C6_exit_codes supportedDevices appleStudioDisplay27
      { mode := Mode.SET, brightness := 5, amount := 0,
        percent := false, force := false }
      { okDevice 1 with setReportOk := false } false false []
      (fun _ => okDevice 1)).2.2.2.2.1 rfl rfl (by decide) (by decide) rfl rfl rfl
  · exact (C6_exit_codes supportedDevices appleStudioDisplay27
      { mode := Mode.GET, brightness := 0, amount := 0,
        percent := false, force := false } failGetUsageDevice false false []
      (fun _ => okDevice 1)).2.2.2.2.2.1 rfl (by decide) (by decide)
      (by decide) (by decide) rfl rfl
  · exact (C6_exit_codes supportedDevices appleStudioDisplay27
      { mode := Mode.GET, brightness := 0, amount := 0,
        percent := false, force := false }
      { okDevice 1 with getReportOk := false } false false []
      (fun _ => okDevice 1)).2.2.2.2.2.2.1 rfl (by decide) (by decide)
      (by decide) (by decide) rfl rfl rfl
  · exact (C6_exit_codes supportedDevices appleStudioDisplay27
      { mode := Mode.SETREL, brightness := 0, amount := 7,
        percent := false, force := false }
      { okDevice 1 with setUsageOk := false } false false []
      (fun _ => okDevice 1)).2.2.2.2.2.2.2.1 rfl rfl (by decide) (by decide)
      rfl rfl rfl rfl
  · exact (C6_exit_codes supportedDevices appleStudioDisplay27
      { mode := Mode.SETREL, brightness := 0, amount := 7,
        percent := false, force := false }
      { okDevice 1 with setReportOk := false } false false []
      (fun _ => okDevice 1)).2.2.2.2.2.2.2.2 rfl rfl (by decide) (by decide)
      rfl rfl rfl rfl rfl

/-- C3 (counterexample): the claim states a get-usage failure aborts only
that device and the loop continues with the remaining paths.  In the
code the failure calls `exit(2)`: with two device paths, the first
failing its get-usage, the whole run exits with code 2 and the second
device is never processed (only one trace exists). -/
theorem C3_counterexample :
    (runDevices supportedDevices
      { mode := Mode.GET, brightness := 0, amount := 0,
        percent := false, force := false }
      [failGetUsageDevice, okDevice 1000]).2 = RunResult.exited 2 ∧
    ((runDevices supportedDevices
      { mode := Mode.GET, brightness := 0, amount := 0,
        percent := false, force := false }
      [failGetUsageDevice, okDevice 1000]).1).length = 1 := by decide

/-- C3 (amended): only an open failure, the detect-mode skip and the
not-a-USB-monitor gate are local to a device (the loop continues); a
device iteration that ends in an exit code terminates the whole run,
and in particular a get-usage failure on one device ends the run with
exit status 2, leaving the remaining paths unprocessed. -/
theorem C3_amended_propagation (reg : List DeviceId) (dd : DeviceId)
    (cfg : Config) (d : Device) (ds : List Device) :
    ((process_device reg cfg d).2 = DevResult.continueRun →
      (runDevices reg cfg (d :: ds)).2 = (runDevices reg cfg ds).2) ∧
    (∀ c, (process_device reg cfg d).2 = DevResult.exitCode c →
      (runDevices reg cfg (d :: ds)).2 = RunResult.exited c) ∧
    (d.openOk = false → (process_device reg cfg d).2 = DevResult.continueRun) ∧
    (d.openOk = true → cfg.mode ≠ Mode.DETECT →
      ¬ (is_supported reg d.vendor d.product = none ∧ cfg.force = false) →
      is_usb_monitor d.applications = false →
      (process_device reg cfg d).2 = DevResult.continueRun) ∧
    (d.openOk = true → cfg.mode ≠ Mode.SET → cfg.mode ≠ Mode.DETECT →
      is_supported reg d.vendor d.product = some dd →
      is_usb_monitor d.applications = true → d.initReportOk = true →
      d.getUsageOk = false →
      (runDevices reg cfg (d :: ds)).2 = RunResult.exited 2) := by
  refine ⟨?_, ?_, ?_, ?_, ?_⟩
  · intro h
    simp [runDevices, h]
  · intro c h
    simp [runDevices, h]
  · intro h
    simp [process_device, h]
  · intro ho hmd hu hmon
    simp [process_device, ho, hmd, hu, hmon]
  · intro ho hms hmd hsel hmon hinit hgu
    have h2 : (process_device reg cfg d).2 = DevResult.exitCode 2 := by
      by_cases hp : cfg.percent = true <;>
        simp [process_device, mainTransaction, applyPercent, ho, hms, hmd,
          hsel, hmon, hinit, hgu, hp]
    simp [runDevices, h2]

/-- C3 (witness): the amended statement at concrete inputs -- an
unopenable device is skipped and the run result is that of the remaining
list, while a supported monitor whose get-usage fails ends the whole run
with exit status 2. -/
theorem C3_amended_witness :
    (runDevices supportedDevices
      { mode := Mode.GET, brightness := 0, amount := 0,
        percent := false, force := false }
      ({ okDevice 1 with openOk := false } :: [okDevice 2])).2 =
      (runDevices supportedDevices
        { mode := Mode.GET, brightness := 0, amount := 0,
          percent := false, force := false } [okDevice 2]).2 ∧
    (runDevices supportedDevices
      { mode := Mode.GET, brightness := 0, amount := 0,
        percent := false, force := false }
      (failGetUsageDevice :: [okDevice 2])).2 = RunResult.exited 2 := by
  constructor
  · have h := C3_amended_propagation supportedDevices appleStudioDisplay27
      { mode := Mode.GET, brightness := 0, amount := 0,
        percent := false, force := false }
      { okDevice 1 with openOk := false } [okDevice 2]
    exact h.1 (h.2.2.1 rfl)
  · exact (C3_amended_propagation supportedDevices appleStudioDisplay27
      { mode := Mode.GET, brightness := 0, amount := 0,
        percent := false, force := false }
      failGetUsageDevice [okDevice 2]).2.2.2.2 rfl (by decide) (by decide)
      (by decide) (by decide) rfl rfl

/-- C8: evaluation at the failing inputs.  The claim states the handle is
closed on every per-device path, the detect-mode path and the
not-a-USB-monitor abort included.  In the code both of those paths
`continue` without `close(fd)`: the trace records the open but contains
no close operation, while the loop moves on to the next path. -/
theorem C8_handle_not_closed :
    (process_device supportedDevices
      { mode := Mode.DETECT, brightness := 0, amount := 0,
        percent := false, force := false } (okDevice 30000)).2 =
      DevResult.continueRun ∧
    Op.openDev ∈ (process_device supportedDevices
      { mode := Mode.DETECT, brightness := 0, amount := 0,
        percent := false, force := false } (okDevice 30000)).1 ∧
    Op.closeDev ∉ (process_device supportedDevices
      { mode := Mode.DETECT, brightness := 0, amount := 0,
        percent := false, force := false } (okDevice 30000)).1 ∧
    (process_device supportedDevices
      { mode := Mode.GET, brightness := 0, amount := 0,
        percent := false, force := false }
      { okDevice 30000 with applications := [0x10000] }).2 =
      DevResult.continueRun ∧
    Op.openDev ∈ (process_device supportedDevices
      { mode := Mode.GET, brightness := 0, amount := 0,
        percent := false, force := false }
      { okDevice 30000 with applications := [0x10000] }).1 ∧
    Op.closeDev ∉ (process_device supportedDevices
      { mode := Mode.GET, brightness := 0, amount := 0,
        percent := false, force := false }
      { okDevice 30000 with applications := [0x10000] }).1 := by decide

end Asdcontrol
